import Mathlib

/-!
Shallow embedding of `tap2tool.py` (esg-epfl-apc/tap2tool).

The program discovers TAP services, introspects each one's table/column
catalog under a signal-based timeout, filters out IVOA-obscore-compliant
services, and renders a nested XML tool-configuration document.

External collaborators (pyvo registry/TAP transport, hashlib) are modelled
at their interface: every access to a service's `.tables` property is one
catalog read whose outcome is a `FetchOutcome`; `hashlib.md5(...).hexdigest()`
is a stand-in deterministic hex function (see `md5hex`).
-/

namespace Tap2tool

/-- One column of a remote table, as yielded by the metadata source
(`table_field` in `TapArchive._set_tables`).  `datatype` models
`table_field.datatype.content`, which may be a string or Python `None`;
`description` may also be `None`. -/
structure SrcField where
  name : String
  datatype : Option String
  unit : String
  description : Option String
deriving DecidableEq, Repr

/-- One table of a remote catalog, as yielded by iterating
`service.tables` (`table` in `TapArchive._set_tables`). -/
structure SrcTable where
  name : String
  type : String
  columns : List SrcField
deriving DecidableEq, Repr

/-- Outcome of one access to a service's `.tables` catalog (a black-box
network read, spec section 6).
`ok ts`: the complete catalog was yielded.
`errAfter kept`: iterating the catalog raised an exception (connection
refused, malformed response, schema parse error, missing `datatype`
attribute, or the SIGALRM `TimeoutError` of the `timeout` decorator)
after having yielded exactly the tables in `kept`. -/
inductive FetchOutcome where
  | ok (tables : List SrcTable)
  | errAfter (kept : List SrcTable)
deriving DecidableEq, Repr

/-- The tables the iteration actually yielded before completing or
raising. -/
def FetchOutcome.yielded : FetchOutcome → List SrcTable
  | .ok tables => tables
  | .errAfter kept => kept

/-- A service descriptor handed to `TapArchive.__init__`
(a pyvo registry record or a `NonIVOATapArchiveWrapper`).
`access_url = none` models the attribute being Python `None` or missing:
`_initialize` treats both identically (an `AttributeError` is caught, a
`None` value fails the emptiness check) and in both cases returns `False`
before any network access.  `res_title`/`short_name` may be `None`. -/
structure ArchiveObject where
  access_url : Option String
  res_title : Option String
  short_name : Option String
deriving DecidableEq, Repr

/-- Normalized field model (`TapArchive.Field`): `type` is the raw
`datatype.content` value, `description` the raw column description. -/
structure Field where
  name : String
  type : Option String
  unit : String
  description : Option String
deriving DecidableEq, Repr

/-- Normalized table model (`TapArchive.Table`). -/
structure Table where
  name : String
  type : String
  fields : List Field
deriving DecidableEq, Repr

/-- Result of running a piece of Python code that may raise: `ok`
carries the returned value, `exn` models an uncaught exception. -/
inductive PyResult (α : Type) where
  | ok (a : α)
  | exn
deriving DecidableEq, Repr

instance : Monad PyResult where
  pure := .ok
  bind := fun x f => match x with | .ok a => f a | .exn => .exn

/-- Map over the value of a non-raising run. -/
def PyResult.map {α β : Type} (f : α → β) : PyResult α → PyResult β
  | .ok a => .ok (f a)
  | .exn => .exn

/-- Embedding of Python `str.lower()`: lowercase every character. -/
def strLower (s : String) : String := String.mk (s.data.map Char.toLower)

/-- Python truthiness test `s != '' and s is not None` used by
`_set_name` (`none` models Python `None`). -/
def pyNonEmpty : Option String → Bool
  | none => false
  | some s => s != ""

/-- Hex digit for `md5hex`. -/
def hexDigit (n : Nat) : Char :=
  if n < 10 then Char.ofNat (48 + n) else Char.ofNat (87 + n)

/-- Modelled from the spec: the identifier derivation delegates to
`hashlib.md5(name.encode("utf-8")).hexdigest()`, Python standard-library
code that is not part of this repository.  Spec section 4.1 specifies its
interface only: a deterministic, pure, never-failing function of the
name's bytes producing a fixed-width hexadecimal string.  This stand-in
realizes exactly that interface (32 lowercase hex digits, deterministic,
total). -/
def md5hex (s : String) : String :=
  let h := s.data.foldl (fun acc c => (acc * 131 + c.toNat) % (2 ^ 128)) 5381
  String.mk ((List.range 32).map fun i => hexDigit (h / 16 ^ (31 - i) % 16))

/-- `TapArchive._set_name`: first non-empty (Python-truthy) of
`res_title`, `short_name`, then the archive's `access_url` attribute.
The result is `none` only if the fallback `access_url` itself is `None`,
which is unreachable whenever `_set_name` actually runs (it runs only
after `_initialize` succeeded, hence on a non-empty string URL). -/
def resolveName (o : ArchiveObject) (access_url : Option String) : Option String :=
  if pyNonEmpty o.res_title then o.res_title
  else if pyNonEmpty o.short_name then o.short_name
  else access_url

/-- `TapArchive._set_tables`, body of the `try`: normalize each yielded
table and column.  Any exception raised while iterating the catalog
(including the timeout signal) is caught by the inner
`except Exception as e: print(e)`, so the method always returns normally
and assigns whatever prefix was collected to `self.tables`. -/
def normalizeField (f : SrcField) : Field :=
  { name := f.name, type := f.datatype, unit := f.unit, description := f.description }

/-- Normalization of one catalog table (`TapArchive.Table(table.name,
table.type, fields)`). -/
def normalizeTable (t : SrcTable) : Table :=
  { name := t.name, type := t.type, fields := t.columns.map normalizeField }

/-- `TapArchive._set_tables`: the tables attribute after the catalog
read, for either read outcome (on an exception the collected prefix is
kept — the inner handler swallows the error). -/
def setTables (fetch : FetchOutcome) : List Table :=
  fetch.yielded.map normalizeTable

/-- The state of a `TapArchive` object after `__init__`.
`service = some url` means `self.service` was set by `_set_service`
(`pyvo.dal.TAPService(url)` stores the URL; it performs no network call);
`name`/`hash` are `none` when the attribute was never assigned (reading
it raises `AttributeError`).  `fetch_attempted` is instrumentation
recording whether a catalog network read was performed. -/
structure TapArchive where
  archive_object : ArchiveObject
  initialized : Bool
  access_url : Option String
  service : Option String
  tables : Option (List Table)
  name : Option String
  hash : Option String
  fetch_attempted : Bool
deriving DecidableEq, Repr

/-- `TapArchive.OBSCORE_TABLE`. -/
def OBSCORE_TABLE : String := "ivoa.obscore"

/-- `TapArchive.__init__` followed by `_initialize`, `_set_name`,
`_set_hash`: the complete construction of a `TapArchive` from a
descriptor, given the outcome `fetch` that one catalog read would have
(consumed only if the read happens).
Control flow of `_initialize`: read `archive_object.access_url`
(`AttributeError` → `False`); if empty or `None` → `False`;
`_set_service`; `_set_tables` under the 5-second alarm — which cannot
raise, because every exception during the catalog iteration is caught by
its inner handler — then `True`.  `__init__` then runs `_set_name` and
`_set_hash` only when `initialized` is true. -/
def tapArchiveInit (o : ArchiveObject) (fetch : FetchOutcome) : TapArchive :=
  let a0 : TapArchive :=
    { archive_object := o, initialized := false, access_url := o.access_url,
      service := none, tables := none, name := none, hash := none,
      fetch_attempted := false }
  match o.access_url with
  | none => a0
  | some u =>
    if u = "" then a0
    else
      let nm := resolveName o (some u)
      { a0 with
        service := some u,
        tables := some (setTables fetch),
        fetch_attempted := true,
        initialized := true,
        name := nm,
        hash := nm.map md5hex }

/-- `TapArchive.get_name`: `if not self.name: self._set_name(); return
self.name`.  `PyResult.exn` models the `AttributeError` raised when
the `name` attribute was never assigned (the Failed-archive case); when
the attribute holds a falsy value `_set_name` is re-run (dead in every
reachable state, kept for fidelity; the re-run can only fail if the
fallback chain ends in a non-string, which is conflated with the raise). -/
def TapArchive.get_name (a : TapArchive) : PyResult String :=
  match a.name with
  | none => .exn
  | some n =>
    if n = "" then
      match resolveName a.archive_object a.access_url with
      | some m => .ok m
      | none => .exn
    else .ok n

/-- `TapArchive.get_hash`: `if not self.hash: self._set_hash(); return
self.hash`, where `_set_hash` first ensures a name and then hashes it.
`PyResult.exn` models the `AttributeError` when the `hash` attribute
was never assigned. -/
def TapArchive.get_hash (a : TapArchive) : PyResult String :=
  match a.hash with
  | none => .exn
  | some h =>
    if h = "" then
      match a.name with
      | some n =>
        if n = "" then
          match resolveName a.archive_object a.access_url with
          | some m => .ok (md5hex m)
          | none => .exn
        else .ok (md5hex n)
      | none => .exn
    else .ok h

/-- `TapArchive._is_ivoa_compliant` (and `is_ivoa`, which just calls it):
walks `self.service.tables` — a fresh access to the service's live
catalog, NOT the normalized `self.tables` attribute — returning `True`
at the first table whose lowercased name equals `OBSCORE_TABLE`.  Any
exception (including `self.service` being `None` on an archive that
failed before `_set_service`) is caught and `False` is returned.  When
the read raises after yielding `kept`, the loop has already returned
`True` if a match occurred in `kept`, and otherwise the exception is
caught and `False` returned; so the result is a match over `yielded` in
every case. -/
def TapArchive.is_ivoa (a : TapArchive) (fetch2 : FetchOutcome) : Bool :=
  match a.service with
  | none => false
  | some _ => fetch2.yielded.any fun t => strLower t.name == OBSCORE_TABLE

/-- `ToolOption`. -/
structure ToolOption where
  value : String
  name : String
deriving DecidableEq, Repr

/-- `ToolOption.get_xml`. -/
def ToolOption.get_xml (o : ToolOption) : String :=
  "<option value=\"" ++ o.value ++ "\">" ++ o.name ++ "</option>"

/-- `ToolParam.DEFAULT_TYPE`. -/
def DEFAULT_TYPE : String := "text"

/-- `ToolParam.allowed_type_list`. -/
def allowed_type_list : List String := ["int", "text", "float", "select"]

/-- `ToolParam._is_type_valid`. -/
def isTypeValid (data_type : String) : Bool := allowed_type_list.contains data_type

/-- A `ToolParam` object after `__init__` (its `data_type` attribute is
the already-coerced value). -/
structure ToolParam where
  name : String
  label : String
  data_type : String
  help : Option String
deriving DecidableEq, Repr

/-- `ToolParam.__init__`: `data_type = none` models passing Python
`None` (or not passing the argument); a passed empty string is falsy and
also falls to the default; a passed non-empty string outside
`allowed_type_list` is coerced to `DEFAULT_TYPE`. -/
def mkToolParam (name label : String) (data_type : Option String) (help : Option String) :
    ToolParam :=
  let dt :=
    match data_type with
    | some d => if d != "" then (if isTypeValid d then d else DEFAULT_TYPE) else DEFAULT_TYPE
    | none => DEFAULT_TYPE
  { name := name, label := label, data_type := dt, help := help }

/-- Python truthiness of the `help` attribute (`None` and `""` are
falsy). -/
def pyTruthyStr : Option String → Bool
  | none => false
  | some s => s != ""

/-- `ToolParam.get_xml`: four-way branch on truthiness of `data_type`
and `help`. -/
def ToolParam.get_xml (p : ToolParam) : String :=
  if p.data_type != "" && pyTruthyStr p.help then
    "<param name=\"" ++ p.name ++ "\" type=\"" ++ p.data_type ++ "\" label=\"" ++ p.label ++
      "\" help=\"" ++ p.help.getD "" ++ "\" />"
  else if p.data_type != "" then
    "<param name=\"" ++ p.name ++ "\" type=\"" ++ p.data_type ++ "\" label=\"" ++ p.label ++ "\" />"
  else if pyTruthyStr p.help then
    "<param name=\"" ++ p.name ++ "\" type=\"" ++ DEFAULT_TYPE ++ "\" label=\"" ++ p.label ++
      "\" help=\"" ++ p.help.getD "" ++ "\" />"
  else
    "<param name=\"" ++ p.name ++ "\" type=\"" ++ DEFAULT_TYPE ++ "\" label=\"" ++ p.label ++ "\" />"

/-- `ToolSelect`. -/
structure ToolSelect where
  name : String
  label : String
  options : List ToolOption
deriving DecidableEq, Repr

/-- `ToolSelect.get_xml`. -/
def ToolSelect.get_xml (s : ToolSelect) : String :=
  let select_top := "<param name=\"" ++ s.name ++ "\" type=\"select\" label=\"" ++ s.label ++ "\">"
  let select_bot := "</param>"
  (s.options.foldl (fun acc o => acc ++ "\t" ++ o.get_xml ++ "\n") (select_top ++ "\n")) ++
    select_bot ++ "\n"

/-- The duck-typed entries of a `ToolWhen` params list: the source mixes
`ToolSelect` and `ToolParam` objects and only calls `get_xml` on them. -/
inductive WhenParam where
  | select (s : ToolSelect)
  | param (p : ToolParam)
deriving DecidableEq, Repr

/-- Dispatch of `get_xml` on a params-list entry. -/
def WhenParam.get_xml : WhenParam → String
  | .select s => s.get_xml
  | .param p => p.get_xml

/-- `ToolWhen`. -/
structure ToolWhen where
  value : String
  params : List WhenParam
deriving DecidableEq, Repr

/-- `ToolWhen.get_xml`. -/
def ToolWhen.get_xml (w : ToolWhen) : String :=
  let when_top := "<when value=\"" ++ w.value ++ "\">" ++ "\n"
  (w.params.foldl (fun acc p => acc ++ "\t" ++ p.get_xml ++ "\n") when_top) ++ "</when>" ++ "\n"

/-- `ToolConditional.CONDITIONAL_TAG_OPEN`. -/
def CONDITIONAL_TAG_OPEN : String := "<conditional> \n"

/-- `ToolConditional.CONDITIONAL_TAG_CLOSE`. -/
def CONDITIONAL_TAG_CLOSE : String := "</conditional> \n"

/-- `ToolWhenNested`. -/
structure ToolWhenNested where
  value : String
  xml_params : String
deriving DecidableEq, Repr

/-- `ToolWhenNested.get_xml`. -/
def ToolWhenNested.get_xml (w : ToolWhenNested) : String :=
  let when_top := "<when value=\"" ++ w.value ++ "\">" ++ "\n" ++ CONDITIONAL_TAG_OPEN ++
    w.xml_params ++ "\n"
  when_top ++ (CONDITIONAL_TAG_CLOSE ++ "</when>") ++ "\n"

/-- `QueryBuildersBlock.BLOCK_NAME`. -/
def BLOCK_NAME : String := "query_type"

/-- `QueryBuildersBlock.BLOCK_LABEL`. -/
def BLOCK_LABEL : String := "ADQL Query Selection"

/-- `QueryBuildersBlock.TABLE_SELECTION_BLOCK_NAME`. -/
def TABLE_SELECTION_BLOCK_NAME : String := "table_selection"

/-- `QueryBuildersBlock.TABLE_SELECTION_BLOCK_LABEL`. -/
def TABLE_SELECTION_BLOCK_LABEL : String := "Table selection"

/-- `QueryBuildersBlock.GENERIC_QUERY_NAME`. -/
def GENERIC_QUERY_NAME : String := "none"

/-- `QueryBuildersBlock.GENERIC_QUERY_LABEL`. -/
def GENERIC_QUERY_LABEL : String := "No specific query (first n files from archive)"

/-- `QueryBuildersBlock.IVOA_BUILDER_NAME`. -/
def IVOA_BUILDER_NAME : String := "obscore_query"

/-- `QueryBuildersBlock.IVOA_BUILDER_LABEL`. -/
def IVOA_BUILDER_LABEL : String := "IVOA obscore table query builder"

/-- `QueryBuildersBlock.RAW_QUERY_NAME`. -/
def RAW_QUERY_NAME : String := "raw_query"

/-- `QueryBuildersBlock.RAW_QUERY_LABEL`. -/
def RAW_QUERY_LABEL : String := "Raw ADQL query builder"

/-- `QueryBuildersBlock.ACCESS_URL_INPUT_NAME`. -/
def ACCESS_URL_INPUT_NAME : String := "access_url"

/-- `QueryBuildersBlock.ACCESS_URL_INPUT_LABEL`. -/
def ACCESS_URL_INPUT_LABEL : String := "Url download field"

/-- `QueryBuildersBlock.ACCESS_URL_INPUT_HELP`. -/
def ACCESS_URL_INPUT_HELP : String := "Field containing the download url of the file"

/-- Loop of `generate_builder_selection_block`: one `ToolOption` per
archive appended in list order, value from `get_hash()` and label from
`get_name()` (argument evaluation order of the source call); an
exception from either propagates. -/
def selectionOptionsLoop : List TapArchive → List ToolOption → PyResult (List ToolOption)
  | [], options => .ok options
  | archive :: rest, options => do
    let h ← archive.get_hash
    let n ← archive.get_name
    selectionOptionsLoop rest (options ++ [ToolOption.mk h n])

/-- `QueryBuildersBlock.generate_builder_selection_block`: the three
fixed options appended first, then one option per archive. -/
def generate_builder_selection_block (archive_list : List TapArchive) :
    PyResult ToolSelect := do
  let options : List ToolOption := []
  let options := options ++ [ToolOption.mk GENERIC_QUERY_NAME GENERIC_QUERY_LABEL]
  let options := options ++ [ToolOption.mk IVOA_BUILDER_NAME IVOA_BUILDER_LABEL]
  let options := options ++ [ToolOption.mk RAW_QUERY_NAME RAW_QUERY_LABEL]
  let options ← selectionOptionsLoop archive_list options
  pure (ToolSelect.mk BLOCK_NAME BLOCK_LABEL options)

/-- `QueryBuildersBlock.generate_builder_table_selection_block`: a
select over the archive's table names. -/
def generate_builder_table_selection_block (archive_tables : List Table) : ToolSelect :=
  let options := archive_tables.foldl
    (fun options table => options ++ [ToolOption.mk table.name table.name]) []
  ToolSelect.mk TABLE_SELECTION_BLOCK_NAME TABLE_SELECTION_BLOCK_LABEL options

/-- Loop body of `generate_builder_params_block` for one table: the
source seeds `fields_params` with the fixed access-URL text `ToolParam`,
then in one loop over the fields appends (a) one option per field to
`download_url_param_options` and (b) one `ToolParam` per field to
`fields_params`, and finally inserts the `download_url` `ToolSelect`
(over those options) at position 0 (`insert(0, x)` is a cons). -/
def tableBranch (table : Table) : ToolWhen :=
  let download_url_param := mkToolParam ACCESS_URL_INPUT_NAME ACCESS_URL_INPUT_LABEL
    (some "text") (some ACCESS_URL_INPUT_HELP)
  let looped := table.fields.foldl
    (fun (acc : List ToolOption × List WhenParam) field =>
      (acc.1 ++ [ToolOption.mk field.name field.name],
       acc.2 ++ [WhenParam.param
         (mkToolParam field.name field.name field.type field.description)]))
    ([], [WhenParam.param download_url_param])
  let download_url_select := ToolSelect.mk "download_url" "Download field" looped.1
  let fields_params := WhenParam.select download_url_select :: looped.2
  ToolWhen.mk table.name fields_params

/-- `QueryBuildersBlock.generate_builder_params_block`: one `ToolWhen`
appended per table, in table order. -/
def generate_builder_params_block (archive_tables : List Table) : List ToolWhen :=
  archive_tables.foldl
    (fun query_builders_params table => query_builders_params ++ [tableBranch table])
    []

/-- Reading the `tables` attribute for iteration: iterating a `None`
value raises a `TypeError`, which nothing in the builder catches. -/
def iterTables : Option (List Table) → PyResult (List Table)
  | some ts => .ok ts
  | none => .exn

/-- Loop of `generate_builders_block`: per archive, the table-selection
block's XML followed by each per-table `ToolWhen` XML, wrapped in a
`ToolWhenNested` keyed by `get_hash()`, concatenated in list order. -/
def buildersBlockLoop : List TapArchive → String → PyResult String
  | [], builders_block => .ok builders_block
  | archive :: rest, builders_block => do
    let tbls ← iterTables archive.tables
    let table_selection := generate_builder_table_selection_block tbls
    let query_builder_params := generate_builder_params_block tbls
    let xml_params := query_builder_params.foldl (fun acc qbp => acc ++ qbp.get_xml)
      table_selection.get_xml
    let h ← archive.get_hash
    buildersBlockLoop rest (builders_block ++ (ToolWhenNested.mk h xml_params).get_xml)

/-- `QueryBuildersBlock.generate_builders_block`. -/
def generate_builders_block (archive_list : List TapArchive) : PyResult String :=
  buildersBlockLoop archive_list ""

/-- `QueryBuildersBlock.generate_block` followed by `get_xml`: the
selection block's XML concatenated with the builders block. -/
def queryBuildersXml (archive_list : List TapArchive) : PyResult String := do
  let selection ← generate_builder_selection_block archive_list
  let builders ← generate_builders_block archive_list
  pure (selection.get_xml ++ builders)

/-- One discovered candidate: the registry record together with the
outcomes of the two catalog reads its service would serve — the one
performed during `TapArchive` construction (`_set_tables`) and the one
performed later by `is_ivoa` (`_is_ivoa_compliant`).  Spec section 6
treats each read as an independent black-box network call. -/
structure Candidate where
  record : ArchiveObject
  introspectFetch : FetchOutcome
  complianceFetch : FetchOutcome
deriving DecidableEq, Repr

/-- `archive_list.getrecord(i)`: out-of-range indexing of the
numpy-backed result set raises `IndexError`. -/
def getrecord (archive_list : List Candidate) (i : Nat) : PyResult Candidate :=
  match archive_list.get? i with
  | some c => .ok c
  | none => .exn

/-- The loop of `get_non_ivoa_archives`: `for i in range(10)` — the
source iterates hard-coded indices 0..9 (the commented-out line iterated
the whole list), keeping each archive that is `initialized` and not
`is_ivoa()`.  `fuel` counts the remaining iterations. -/
def nonIvoaLoop (archive_list : List Candidate) :
    Nat → Nat → List TapArchive → PyResult (List TapArchive)
  | _, 0, non_ivoa_archives => .ok non_ivoa_archives
  | i, fuel + 1, non_ivoa_archives => do
    let c ← getrecord archive_list i
    let archive := tapArchiveInit c.record c.introspectFetch
    let non_ivoa_archives :=
      if archive.initialized then
        if archive.is_ivoa c.complianceFetch then non_ivoa_archives
        else non_ivoa_archives ++ [archive]
      else non_ivoa_archives
    nonIvoaLoop archive_list (i + 1) fuel non_ivoa_archives

/-- `get_non_ivoa_archives`. -/
def get_non_ivoa_archives (archive_list : List Candidate) : PyResult (List TapArchive) :=
  nonIvoaLoop archive_list 0 10 []

/-! Spec-side definitions (written from the specification's words, for
comparison with the embedded code) and concrete inputs used by the
theorems below. -/

/-- Spec-side name-priority rule, as section 3 words it: the first
non-empty of displayName, shortName, accessURL, in that order. -/
def specResolvedName (displayName shortName accessURL : String) : String :=
  if displayName != "" then displayName
  else if shortName != "" then shortName
  else accessURL

/-- View of an optional descriptor field with Python `None` read as the
empty string (the spec types these fields as possibly-empty strings). -/
def optStr (s : Option String) : String := s.getD ""

/-- Spec-side case-insensitive string equality. -/
def caseInsensitiveEq (s t : String) : Bool := strLower s == strLower t

/-- The three fixed root-selector options the spec lists: the
no-specific-filter choice, the standard-convention (obscore) query
choice, and the raw-query choice. -/
def fixedRootOptions : List ToolOption :=
  [ToolOption.mk GENERIC_QUERY_NAME GENERIC_QUERY_LABEL,
   ToolOption.mk IVOA_BUILDER_NAME IVOA_BUILDER_LABEL,
   ToolOption.mk RAW_QUERY_NAME RAW_QUERY_LABEL]

/-- The root-selector option contributed by one archive: value from its
hash attribute, label from its name attribute. -/
def archiveOption (a : TapArchive) : ToolOption :=
  ToolOption.mk (optStr a.hash) (optStr a.name)

/-- The fixed access-URL free-text parameter seeded into every table
branch. -/
def accessUrlTextParam : ToolParam :=
  mkToolParam ACCESS_URL_INPUT_NAME ACCESS_URL_INPUT_LABEL (some "text") (some ACCESS_URL_INPUT_HELP)

/-- The per-table sub-branch as the builder actually emits it: the
download-URL selector (one option per field), then the extra access-URL
free-text parameter, then one parameter per field, in field order. -/
def specTableBranch (table : Table) : ToolWhen :=
  ToolWhen.mk table.name
    (WhenParam.select (ToolSelect.mk "download_url" "Download field"
        (table.fields.map fun f => ToolOption.mk f.name f.name))
      :: WhenParam.param accessUrlTextParam
      :: table.fields.map fun f => WhenParam.param (mkToolParam f.name f.name f.type f.description))

/-- A descriptor with a working access URL, a display title, and an
empty short name. -/
def demoObj : ArchiveObject :=
  { access_url := some "http://a/tap", res_title := some "Archive A", short_name := some "" }

/-- A column of a demo catalog table. -/
def demoField : SrcField :=
  { name := "ra", datatype := some "float", unit := "deg", description := some "Right ascension" }

/-- A catalog table that is not the reference obscore table. -/
def demoTable : SrcTable := { name := "photometry", type := "table", columns := [demoField] }

/-- A catalog table carrying the reference obscore name in mixed case. -/
def obscoreSrcTable : SrcTable := { name := "IVOA.ObsCore", type := "table", columns := [] }

/-- A candidate whose two catalog reads both succeed with a non-obscore
catalog: its archive is Ready and not compliant. -/
def demoCand : Candidate :=
  { record := demoObj, introspectFetch := .ok [demoTable], complianceFetch := .ok [demoTable] }

/-- A candidate whose construction-time read returns the obscore catalog
but whose compliance-time read raises before yielding anything. -/
def obscoreErrCand : Candidate :=
  { record := demoObj, introspectFetch := .ok [obscoreSrcTable], complianceFetch := .errAfter [] }

/-- A descriptor whose access URL is the empty string. -/
def emptyUrlObj : ArchiveObject :=
  { access_url := some "", res_title := some "Some Archive", short_name := some "SA" }

/-- A Ready, non-compliant archive used as builder input. -/
def demoReadyArchive : TapArchive := tapArchiveInit demoObj (FetchOutcome.ok [demoTable])

/-! Helper lemmas. -/

/-- Binding a successful run just continues. -/
theorem PyResult.bind_ok {α β : Type} (a : α) (f : α → PyResult β) :
    (PyResult.ok a >>= f) = f a := rfl

/-- Binding a raising run propagates the exception. -/
theorem PyResult.bind_exn {α β : Type} (f : α → PyResult β) :
    ((PyResult.exn : PyResult α) >>= f) = PyResult.exn := rfl

/-- The stand-in digest is never the empty string (it always has 32
digits). -/
theorem md5hex_ne_empty (s : String) : md5hex s ≠ "" := by
  intro h
  have h2 := congrArg String.data h
  simp [md5hex] at h2

/-- The reference table name constant is already lowercase. -/
theorem strLower_obscore : strLower OBSCORE_TABLE = OBSCORE_TABLE := by decide

/-- Comparing case-insensitively against the (lowercase) reference name
is the same as the source's lowercase-then-compare. -/
theorem caseInsensitiveEq_obscore (s : String) :
    caseInsensitiveEq s OBSCORE_TABLE = (strLower s == OBSCORE_TABLE) := by
  simp [caseInsensitiveEq, strLower_obscore]

/-- An append-one-element loop is a map. -/
theorem foldl_append_singleton {α β : Type} (g : α → β) (l : List α) (init : List β) :
    l.foldl (fun acc x => acc ++ [g x]) init = init ++ l.map g := by
  induction l generalizing init with
  | nil => simp
  | cons a as ih => simp [ih, List.append_assoc]

/-- The field loop of `tableBranch` builds the option list and the
parameter list by mapping over the fields. -/
theorem fieldsPairFold (fields : List Field) (o0 : List ToolOption) (p0 : List WhenParam) :
    fields.foldl
      (fun (acc : List ToolOption × List WhenParam) field =>
        (acc.1 ++ [ToolOption.mk field.name field.name],
         acc.2 ++ [WhenParam.param (mkToolParam field.name field.name field.type field.description)]))
      (o0, p0)
    = (o0 ++ fields.map fun f => ToolOption.mk f.name f.name,
       p0 ++ fields.map fun f => WhenParam.param (mkToolParam f.name f.name f.type f.description)) := by
  induction fields generalizing o0 p0 with
  | nil => simp
  | cons f fs ih => simp [ih, List.append_assoc]

/-- `_set_name` with a non-empty URL fallback always produces a
non-empty name. -/
theorem resolveName_some_nonEmpty (o : ArchiveObject) (u : String) (hu : u ≠ "") :
    ∃ n, resolveName o (some u) = some n ∧ n ≠ "" := by
  unfold resolveName
  split
  · next h =>
    rcases ht : o.res_title with _ | d
    · rw [ht] at h; simp [pyNonEmpty] at h
    · refine ⟨d, rfl, ?_⟩
      rw [ht] at h; simpa [pyNonEmpty] using h
  · split
    · next h2 =>
      rcases hs : o.short_name with _ | e
      · rw [hs] at h2; simp [pyNonEmpty] at h2
      · refine ⟨e, rfl, ?_⟩
        rw [hs] at h2; simpa [pyNonEmpty] using h2
    · exact ⟨u, rfl, hu⟩

/-- An initialized archive went through `_set_service`, so its `service`
attribute is set. -/
theorem init_ready_service (o : ArchiveObject) (f : FetchOutcome)
    (h : (tapArchiveInit o f).initialized = true) :
    ∃ u, (tapArchiveInit o f).service = some u := by
  rcases ho : o.access_url with _ | u
  · simp [tapArchiveInit, ho] at h
  · by_cases hu : u = ""
    · simp [tapArchiveInit, ho, hu] at h
    · exact ⟨u, by simp [tapArchiveInit, ho, hu]⟩

/-- `_is_type_valid` tests membership in `allowed_type_list`. -/
theorem isTypeValid_iff (d : String) : isTypeValid d = true ↔ d ∈ allowed_type_list := by
  simp [isTypeValid]

/-- The selection-block loop, on archives whose name and hash attributes
are set and non-empty, appends exactly one option per archive. -/
theorem selectionOptionsLoop_ok (archives : List TapArchive) (init : List ToolOption)
    (h : ∀ a ∈ archives, (∃ hh, a.hash = some hh ∧ hh ≠ "") ∧ (∃ nn, a.name = some nn ∧ nn ≠ "")) :
    selectionOptionsLoop archives init = PyResult.ok (init ++ archives.map archiveOption) := by
  induction archives generalizing init with
  | nil => simp [selectionOptionsLoop]
  | cons a as ih =>
    obtain ⟨⟨hh, hh1, hh2⟩, ⟨nn, hn1, hn2⟩⟩ := h a (List.mem_cons_self a as)
    have hga : a.get_hash = PyResult.ok hh := by
      simp [TapArchive.get_hash, hh1, hh2]
    have hgn : a.get_name = PyResult.ok nn := by
      simp [TapArchive.get_name, hn1, hn2]
    have hopt : archiveOption a = ToolOption.mk hh nn := by
      simp [archiveOption, optStr, hh1, hn1]
    rw [selectionOptionsLoop, hga, PyResult.bind_ok, hgn, PyResult.bind_ok,
      ih _ (fun b hb => h b (List.mem_cons_of_mem a hb))]
    simp [hopt, List.append_assoc]

/-- The per-table loop body equals the per-table branch description. -/
theorem tableBranch_eq_spec (table : Table) : tableBranch table = specTableBranch table := by
  simp only [tableBranch, fieldsPairFold]
  rfl

/-- The params block maps the branch description over the tables. -/
theorem paramsBlock_eq_map (archive_tables : List Table) :
    generate_builder_params_block archive_tables = archive_tables.map specTableBranch := by
  unfold generate_builder_params_block
  rw [foldl_append_singleton tableBranch]
  have hfun : tableBranch = specTableBranch := funext tableBranch_eq_spec
  rw [hfun]
  simp

/-! Claim theorems. -/

/-- C1: the claim says a catalog fetch that exceeds the time budget or
raises a transport error yields an Archive with introspectionState
Failed and no partially collected tables.  The code does the opposite:
the exception (timeout signal included) raised while iterating the
catalog is caught by `_set_tables`'s inner `except Exception` handler,
the prefix collected so far is assigned to `self.tables`, `_set_tables`
returns normally, and `_initialize` returns `True`.  Evaluated at a
service whose catalog read raises after yielding one table: the archive
is Ready and retains that partial table. -/
theorem c1_error_read_keeps_prefix_marks_ready :
    (tapArchiveInit demoObj (FetchOutcome.errAfter [demoTable])).initialized = true
  ∧ (tapArchiveInit demoObj (FetchOutcome.errAfter [demoTable])).tables
      = some [normalizeTable demoTable]
  ∧ (tapArchiveInit demoObj (FetchOutcome.errAfter [demoTable])).fetch_attempted = true := by
  decide

/-- C2: the claim says curate introspects each candidate in the
discovered list.  The code's loop is `for i in range(10)` (the full-list
loop is commented out), so an eleventh candidate — although Ready and
not compliant, hence demanded by the claim — is never introspected:
on a list of 11 such candidates the result has 10 archives. -/
theorem c2_curate_caps_at_ten :
    (tapArchiveInit demoCand.record demoCand.introspectFetch).initialized = true
  ∧ (tapArchiveInit demoCand.record demoCand.introspectFetch).is_ivoa demoCand.complianceFetch
      = false
  ∧ (get_non_ivoa_archives (List.replicate 11 demoCand)).map List.length = PyResult.ok 10 := by
  decide

/-- C3 counterexample: on a descriptor with an empty access URL the
archive is Failed, `_set_name`/`_set_hash` never ran, and `get_name` and
`get_hash` raise `AttributeError` instead of succeeding as the claim
requires. -/
theorem c3_counterexample_failed_archive_name_raises :
    (tapArchiveInit emptyUrlObj (FetchOutcome.ok [])).initialized = false
  ∧ (tapArchiveInit emptyUrlObj (FetchOutcome.ok [])).get_name = PyResult.exn
  ∧ (tapArchiveInit emptyUrlObj (FetchOutcome.ok [])).get_hash = PyResult.exn := by
  decide

/-- C3 amended: resolvedName and identifierHash are computed (with
hash = digest of name) exactly when introspection succeeded; on a Failed
archive the `name` and `hash` attributes are never assigned and
`get_name`/`get_hash` raise. -/
theorem c3_name_hash_only_on_ready (o : ArchiveObject) (f : FetchOutcome) :
    ((tapArchiveInit o f).initialized = true →
      ∃ n, (tapArchiveInit o f).name = some n ∧ (tapArchiveInit o f).hash = some (md5hex n)
        ∧ (tapArchiveInit o f).get_name = PyResult.ok n
        ∧ (tapArchiveInit o f).get_hash = PyResult.ok (md5hex n))
  ∧ ((tapArchiveInit o f).initialized = false →
      (tapArchiveInit o f).name = none ∧ (tapArchiveInit o f).hash = none
        ∧ (tapArchiveInit o f).get_name = PyResult.exn
        ∧ (tapArchiveInit o f).get_hash = PyResult.exn) := by
  rcases ho : o.access_url with _ | u
  · refine ⟨fun h => absurd h ?_, fun _ => ?_⟩
    · simp [tapArchiveInit, ho]
    · simp [tapArchiveInit, ho, TapArchive.get_name, TapArchive.get_hash]
  · by_cases hu : u = ""
    · refine ⟨fun h => absurd h ?_, fun _ => ?_⟩
      · simp [tapArchiveInit, ho, hu]
      · simp [tapArchiveInit, ho, hu, TapArchive.get_name, TapArchive.get_hash]
    · obtain ⟨n, hn, hne⟩ := resolveName_some_nonEmpty o u hu
      refine ⟨fun _ => ⟨n, ?_, ?_, ?_, ?_⟩, fun h => absurd h ?_⟩
      · simp [tapArchiveInit, ho, hu, hn]
      · simp [tapArchiveInit, ho, hu, hn]
      · simp [tapArchiveInit, ho, hu, hn, TapArchive.get_name, hne]
      · simp [tapArchiveInit, ho, hu, hn, TapArchive.get_hash, md5hex_ne_empty n]
      · simp [tapArchiveInit, ho, hu]

/-- C3 witness: the Failed branch of `c3_name_hash_only_on_ready` at a
descriptor whose access URL attribute is missing. -/
theorem c3_name_hash_only_on_ready_witness :
    (tapArchiveInit ⟨none, some "N", none⟩ (FetchOutcome.ok [])).get_name = PyResult.exn
  ∧ (tapArchiveInit ⟨none, some "N", none⟩ (FetchOutcome.ok [])).get_hash = PyResult.exn := by
  have h := (c3_name_hash_only_on_ready ⟨none, some "N", none⟩ (FetchOutcome.ok [])).2 (by decide)
  exact ⟨h.2.2.1, h.2.2.2⟩

/-- C4 counterexample: a Ready archive whose normalized table list
contains the reference table (case-insensitively) is reported NOT
compliant when the fresh catalog read performed by the compliance check
raises: the predicate does not consult the archive's table list, so the
claimed equivalence fails. -/
theorem c4_counterexample_live_read_overrides_tables :
    (tapArchiveInit demoObj (FetchOutcome.ok [obscoreSrcTable])).initialized = true
  ∧ (tapArchiveInit demoObj (FetchOutcome.ok [obscoreSrcTable])).tables
      = some [Table.mk "IVOA.ObsCore" "table" []]
  ∧ caseInsensitiveEq "IVOA.ObsCore" OBSCORE_TABLE = true
  ∧ (tapArchiveInit demoObj (FetchOutcome.ok [obscoreSrcTable])).is_ivoa
      (FetchOutcome.errAfter []) = false := by
  decide

/-- C4 amended: for a Ready archive, the compliance predicate returns
true iff the fresh live-catalog read it performs yields (before any
error) a table whose name equals the reference name case-insensitively;
an empty or absent catalog gives false rather than an error. -/
theorem c4_compliance_iff_live_match (o : ArchiveObject) (f f2 : FetchOutcome)
    (h : (tapArchiveInit o f).initialized = true) :
    ((tapArchiveInit o f).is_ivoa f2 = true ↔
      ∃ t ∈ f2.yielded, caseInsensitiveEq t.name OBSCORE_TABLE = true)
  ∧ (f2.yielded = [] → (tapArchiveInit o f).is_ivoa f2 = false) := by
  obtain ⟨u, hu⟩ := init_ready_service o f h
  have hmain : (tapArchiveInit o f).is_ivoa f2
      = f2.yielded.any fun t => strLower t.name == OBSCORE_TABLE := by
    simp only [TapArchive.is_ivoa, hu]
  refine ⟨?_, fun he => ?_⟩
  · rw [hmain, List.any_eq_true]
    simp only [caseInsensitiveEq_obscore]
  · rw [hmain, he]
    rfl

/-- C4 witness: a Ready archive whose compliance-time read yields the
mixed-case reference table is compliant. -/
theorem c4_compliance_iff_live_match_witness :
    (tapArchiveInit demoObj (FetchOutcome.ok [demoTable])).is_ivoa
      (FetchOutcome.ok [obscoreSrcTable]) = true := by
  refine ((c4_compliance_iff_live_match demoObj (FetchOutcome.ok [demoTable])
    (FetchOutcome.ok [obscoreSrcTable]) (by decide)).1).mpr ?_
  exact ⟨obscoreSrcTable, by decide, by decide⟩

/-- C5: the root selector consists of the three fixed options followed
by exactly one option per archive in list order, keyed by the archive's
hash and labelled with its name; and for the empty archive list the
document is exactly the three-fixed-option selector with no nested
branches. -/
theorem c5_root_selector_structure (archives : List TapArchive)
    (h : ∀ a ∈ archives, (∃ hh, a.hash = some hh ∧ hh ≠ "") ∧ (∃ nn, a.name = some nn ∧ nn ≠ "")) :
    generate_builder_selection_block archives
      = PyResult.ok (ToolSelect.mk BLOCK_NAME BLOCK_LABEL
          (fixedRootOptions ++ archives.map archiveOption))
  ∧ generate_builders_block ([] : List TapArchive) = PyResult.ok ""
  ∧ queryBuildersXml ([] : List TapArchive)
      = PyResult.ok (ToolSelect.mk BLOCK_NAME BLOCK_LABEL fixedRootOptions).get_xml := by
  refine ⟨?_, rfl, ?_⟩
  swap
  · have hq : queryBuildersXml ([] : List TapArchive)
        = PyResult.ok ((ToolSelect.mk BLOCK_NAME BLOCK_LABEL fixedRootOptions).get_xml ++ "") :=
      rfl
    rw [hq, String.append_empty]
  have hl := selectionOptionsLoop_ok archives fixedRootOptions h
  simp only [generate_builder_selection_block, List.nil_append]
  rw [show [ToolOption.mk GENERIC_QUERY_NAME GENERIC_QUERY_LABEL]
        ++ [ToolOption.mk IVOA_BUILDER_NAME IVOA_BUILDER_LABEL]
        ++ [ToolOption.mk RAW_QUERY_NAME RAW_QUERY_LABEL] = fixedRootOptions from rfl]
  rw [hl, PyResult.bind_ok]
  rfl

/-- C5 witness: the root selector for one Ready archive. -/
theorem c5_root_selector_structure_witness :
    generate_builder_selection_block [demoReadyArchive]
      = PyResult.ok (ToolSelect.mk BLOCK_NAME BLOCK_LABEL
          (fixedRootOptions ++ [demoReadyArchive].map archiveOption)) := by
  refine (c5_root_selector_structure [demoReadyArchive] ?_).1
  intro a ha
  rw [List.mem_singleton] at ha
  subst ha
  exact ⟨⟨md5hex "Archive A", by decide, by decide⟩, ⟨"Archive A", by decide, by decide⟩⟩

/-- C6 counterexample: for a one-field table the claim demands exactly
two entries in the sub-branch (the field's parameter plus the synthetic
selector), but the emitted branch has three entries — the builder also
inserts a fixed access-URL free-text parameter. -/
theorem c6_counterexample_extra_access_url_param :
    (generate_builder_params_block [normalizeTable demoTable]).map (fun w => w.params.length)
      = [3]
  ∧ (normalizeTable demoTable).fields.length = 1 := by
  decide

/-- C6 amended: each table's sub-branch (keyed by the table name)
contains the synthetic access-URL selector with exactly one option per
field, then one fixed access-URL free-text parameter, then exactly one
parameter descriptor per field, and nothing else. -/
theorem c6_table_branch_structure (archive_tables : List Table) :
    generate_builder_params_block archive_tables = archive_tables.map specTableBranch :=
  paramsBlock_eq_map archive_tables

/-- C7: every emitted parameter type is in the fixed allowed set; a
reported type outside the set, or an absent one, is coerced to the
default "text" type. -/
theorem c7_param_type_coercion (name label : String) (dt help : Option String) :
    (mkToolParam name label dt help).data_type ∈ allowed_type_list
  ∧ (∀ d, dt = some d → d ∉ allowed_type_list →
      (mkToolParam name label dt help).data_type = DEFAULT_TYPE)
  ∧ (dt = none → (mkToolParam name label dt help).data_type = DEFAULT_TYPE) := by
  refine ⟨?_, ?_, ?_⟩
  · rcases dt with _ | d
    · simp [mkToolParam, DEFAULT_TYPE, allowed_type_list]
    · by_cases hd : d = ""
      · simp [mkToolParam, hd, DEFAULT_TYPE, allowed_type_list]
      · by_cases hv : isTypeValid d
        · simpa [mkToolParam, hd, hv] using (isTypeValid_iff d).mp hv
        · simp [mkToolParam, hd, hv, DEFAULT_TYPE, allowed_type_list]
  · rintro d rfl hd
    by_cases hde : d = ""
    · simp [mkToolParam, hde]
    · have hv : ¬ isTypeValid d = true := fun hv => hd ((isTypeValid_iff d).mp hv)
      simp [mkToolParam, hde, hv]
  · rintro rfl
    simp [mkToolParam]

/-- C7 witness: the spec's example — a field reported as "blob" is
emitted with the "text" type. -/
theorem c7_param_type_coercion_witness :
    (mkToolParam "f" "f" (some "blob") none).data_type = DEFAULT_TYPE :=
  (c7_param_type_coercion "f" "f" (some "blob") none).2.1 "blob" rfl (by decide)

/-- C8: for a descriptor with a non-empty access URL (the case where a
name is resolved at all — see C3 for the Failed case), the resolved name
follows the spec's priority rule: displayName if non-empty, else
shortName if non-empty, else the access URL. -/
theorem c8_resolved_name_priority (o : ArchiveObject) (f : FetchOutcome) (u : String)
    (hu : o.access_url = some u) (hne : u ≠ "") :
    (tapArchiveInit o f).name
      = some (specResolvedName (optStr o.res_title) (optStr o.short_name) u) := by
  have hstep : (tapArchiveInit o f).name = resolveName o (some u) := by
    simp [tapArchiveInit, hu, hne]
  rw [hstep]
  unfold resolveName
  rcases o.res_title with _ | d <;> rcases o.short_name with _ | e
  · simp [pyNonEmpty, specResolvedName, optStr]
  · by_cases he : e = "" <;>
      simp [pyNonEmpty, specResolvedName, optStr, he]
  · by_cases hd : d = "" <;>
      simp [pyNonEmpty, specResolvedName, optStr, hd]
  · by_cases hd : d = "" <;> by_cases he : e = "" <;>
      simp [pyNonEmpty, specResolvedName, optStr, hd, he]

/-- C8 witness: the spec's example — empty displayName, shortName
"X Archive" resolves to "X Archive". -/
theorem c8_resolved_name_priority_witness :
    (tapArchiveInit ⟨some "https://x/tap", some "", some "X Archive"⟩ (FetchOutcome.ok [])).name
      = some "X Archive" := by
  have h := c8_resolved_name_priority ⟨some "https://x/tap", some "", some "X Archive"⟩
    (FetchOutcome.ok []) "https://x/tap" rfl (by decide)
  simpa [specResolvedName, optStr] using h

/-- C9: a descriptor with an empty or missing access URL produces a
Failed archive immediately: no catalog read is attempted, no tables are
set, and no service object is created. -/
theorem c9_empty_url_fails_without_network (o : ArchiveObject) (f : FetchOutcome)
    (h : o.access_url = none ∨ o.access_url = some "") :
    (tapArchiveInit o f).initialized = false
  ∧ (tapArchiveInit o f).fetch_attempted = false
  ∧ (tapArchiveInit o f).tables = none
  ∧ (tapArchiveInit o f).service = none := by
  rcases h with h | h <;> simp [tapArchiveInit, h]

/-- C9 witness: the empty-URL descriptor. -/
theorem c9_empty_url_fails_without_network_witness :
    (tapArchiveInit emptyUrlObj (FetchOutcome.ok [demoTable])).initialized = false
  ∧ (tapArchiveInit emptyUrlObj (FetchOutcome.ok [demoTable])).fetch_attempted = false
  ∧ (tapArchiveInit emptyUrlObj (FetchOutcome.ok [demoTable])).tables = none
  ∧ (tapArchiveInit emptyUrlObj (FetchOutcome.ok [demoTable])).service = none :=
  c9_empty_url_fails_without_network emptyUrlObj (FetchOutcome.ok [demoTable]) (Or.inr rfl)

/-- C10: the compliance check of a Ready archive ignores the archive's
normalized table list (replacing it changes nothing), reads the
service's live catalog instead, returns false whenever that read raises
before yielding a matching table, and such an archive is retained by the
curation loop: ten candidates whose construction-time read returned the
obscore catalog but whose compliance-time read raises are all retained. -/
theorem c10_compliance_reads_live_catalog (o : ArchiveObject) (f f2 : FetchOutcome)
    (tbls : Option (List Table)) (h : (tapArchiveInit o f).initialized = true) :
    ({ tapArchiveInit o f with tables := tbls }).is_ivoa f2 = (tapArchiveInit o f).is_ivoa f2
  ∧ (∀ kept : List SrcTable, (∀ t ∈ kept, strLower t.name ≠ OBSCORE_TABLE) →
      (tapArchiveInit o f).is_ivoa (FetchOutcome.errAfter kept) = false)
  ∧ (get_non_ivoa_archives (List.replicate 10 obscoreErrCand)).map List.length = PyResult.ok 10
  ∧ (tapArchiveInit obscoreErrCand.record obscoreErrCand.introspectFetch).tables
      = some [Table.mk "IVOA.ObsCore" "table" []] := by
  obtain ⟨u, hu⟩ := init_ready_service o f h
  refine ⟨rfl, fun kept hk => ?_, by decide, by decide⟩
  simp only [TapArchive.is_ivoa, hu, FetchOutcome.yielded]
  rw [List.any_eq_false]
  intro t ht
  simpa using hk t ht

/-- C10 witness: replacing the normalized tables of a Ready archive does
not change the compliance verdict. -/
theorem c10_compliance_reads_live_catalog_witness :
    ({ tapArchiveInit demoObj (FetchOutcome.ok [obscoreSrcTable]) with
        tables := none }).is_ivoa (FetchOutcome.ok [])
      = (tapArchiveInit demoObj (FetchOutcome.ok [obscoreSrcTable])).is_ivoa
          (FetchOutcome.ok []) :=
  (c10_compliance_reads_live_catalog demoObj (FetchOutcome.ok [obscoreSrcTable])
    (FetchOutcome.ok []) none (by decide)).1

end Tap2tool
